import Mathlib

/-!
Verification of the diasend→nightscout bridge synchronization core
(src/index.ts).  The pipeline orchestration (identifyTreatments,
syncDiasendDataToNightscout, syncDiasendGlucoseToNightscout,
startSynchronization, startPumpSettingsSynchronization,
getDiasendPatientData) is embedded from the source.  The collaborator
modules (adapter, diasend, nightscout, Looper) are not part of the
inspected sources; where a claim depends on them they are modelled from
the specification and marked as such.

Conventions: timestamps are epoch milliseconds as `Nat`; JavaScript
object reference identity of records is modelled as structural equality;
a thrown exception is modelled by `Option`/an explicit failure variant;
the in-place descending `Array.sort` is modelled by a stable insertion
sort on list values.
-/

/-- Record kinds of the diasend patient-data tagged union
(`glucose | carb | insulin_bolus | insulin_basal`). -/
inductive RecordType where
  | glucose
  | carb
  | insulin_bolus
  | insulin_basal
deriving DecidableEq, Repr

/-- A diasend patient record paired with its device
(`PatientRecordWithDeviceData`): kind, creation timestamp (epoch ms),
device identity, the kind-specific numeric payload (glucose value, carb
grams, bolus units or basal rate), and `uid`, a stand-in for the
JavaScript object identity of the record. -/
structure PatientRecord where
  type : RecordType
  created_at : Nat
  device : Nat
  value : Int
  uid : Nat
deriving DecidableEq, Repr

/-- Modelled from the spec (nightscout module not in src/): a sink-side
glucose entry — timestamp, value, source-device tag. -/
structure Entry where
  date : Nat
  sgv : Int
  device : Nat
deriving DecidableEq, Repr

/-- Modelled from the spec (nightscout module not in src/): the treatment
tagged union, reduced to the identities of the records it was derived
from.  A meal bolus references the record it was resolved from and the
correlated counterpart record; the two correction treatments reference
their single source record. -/
inductive Treatment where
  | mealBolus (sourceUid : Nat) (pairedUid : Nat)
  | correctionBolus (sourceUid : Nat)
  | carbCorrection (sourceUid : Nat)
deriving DecidableEq, Repr

/-- Identity of the record a treatment was resolved from. -/
def Treatment.resolvedUid : Treatment → Nat
  | .mealBolus u _ => u
  | .correctionBolus u => u
  | .carbCorrection u => u

/-- Identity of the correlated counterpart record of a meal bolus. -/
def Treatment.counterpartUid : Treatment → Option Nat
  | .mealBolus _ c => some c
  | .correctionBolus _ => none
  | .carbCorrection _ => none

/-- Modelled from the spec (adapter module not in src/): the three ways a
call of `diasendRecordToNightscoutTreatment` can end — it returns a
treatment, it returns null/undefined (the record is the already-consumed
counterpart of a meal bolus), or it throws. -/
inductive ResolveResult where
  | resolved (t : Treatment)
  | skipped
  | failed (msg : String)
deriving DecidableEq, Repr

/-- The type of `diasendRecordToNightscoutTreatment`: a record plus the
batch it may search for counterparts. -/
def Resolver : Type :=
  PatientRecord → List PatientRecord → ResolveResult

/-- Treatment returned by a resolution, if any. -/
def resolveOk : ResolveResult → Option Treatment
  | .resolved t => some t
  | .skipped => none
  | .failed _ => none

/-- Whether a resolution threw. -/
def resolveFailed : ResolveResult → Bool
  | .failed _ => true
  | .resolved _ => false
  | .skipped => false

/-- Filter of `identifyTreatments`:
`["insulin_bolus", "carb"].includes(record.type)`. -/
def isCarbOrBolus (r : PatientRecord) : Bool :=
  r.type == RecordType.insulin_bolus || r.type == RecordType.carb

/-- Output of `identifyTreatments`. -/
structure IdentifyResult where
  treatments : List Treatment
  unprocessedRecords : List PatientRecord
deriving DecidableEq, Repr

/-- One step of the reducer inside `identifyTreatments`: try to resolve
the record against the filtered batch; push the treatment if one is
returned, remember the record as unprocessed if the resolver throws. -/
def identifyStep (resolve : Resolver) (batch : List PatientRecord)
    (acc : IdentifyResult) (r : PatientRecord) : IdentifyResult :=
  match resolve r batch with
  | .resolved t => { acc with treatments := acc.treatments ++ [t] }
  | .skipped => acc
  | .failed _ => { acc with unprocessedRecords := acc.unprocessedRecords ++ [r] }

/-- `identifyTreatments` (src/index.ts:66-104): filter the batch down to
carb and bolus records, then reduce over it; the reducer's fourth
argument (the array being reduced, i.e. the filtered batch) is what each
resolution may search. -/
def identifyTreatments (resolve : Resolver) (records : List PatientRecord) :
    IdentifyResult :=
  let filtered := records.filter isCarbOrBolus
  filtered.foldl (identifyStep resolve filtered) ⟨[], []⟩

/-- Whether a record contributed to one of the produced treatments,
either as the record a treatment was resolved from or as the correlated
counterpart of a meal bolus. -/
def contributesTo (r : PatientRecord) (ts : List Treatment) : Bool :=
  ts.any (fun t => t.resolvedUid == r.uid || t.counterpartUid == some r.uid)

/-- Insertion of an element into a list sorted descending by `key`. -/
def insertDescBy {α : Type} (key : α → Nat) (x : α) : List α → List α
  | [] => [x]
  | y :: ys => if key y ≤ key x then x :: y :: ys else y :: insertDescBy key x ys

/-- Stable sort, descending by `key`; models the in-place
`records.sort((r1, r2) => dayjs(r2.created_at).diff(r1.created_at))`. -/
def sortDescBy {α : Type} (key : α → Nat) : List α → List α
  | [] => []
  | x :: xs => insertDescBy key x (sortDescBy key xs)

/-- Glucose records are dropped from the treatments pipeline right after
the fetch: `.filter((r) => r.type !== "glucose")` (src/index.ts:181). -/
def freshNonGlucose (fetched : List PatientRecord) : List PatientRecord :=
  fetched.filter (fun r => !(r.type == RecordType.glucose))

/-- The `latestRecordDate` of a treatments cycle (src/index.ts:185-194):
head of the freshly fetched non-glucose records sorted descending by
`created_at`, null when the fetch was empty; computed before the
previously postponed records are re-added. -/
def latestRecordDateOf (fetched : List PatientRecord) : Option Nat :=
  match sortDescBy PatientRecord.created_at (freshNonGlucose fetched) with
  | [] => none
  | r :: _ => some r.created_at

/-- The record list handed to `identifyTreatments`:
`records.unshift(...previousRecords)` prepends the carry-forwards to the
(by then descending-sorted) fresh non-glucose records. -/
def identifyInput (fetched prev : List PatientRecord) : List PatientRecord :=
  prev ++ sortDescBy PatientRecord.created_at (freshNonGlucose fetched)

/-- Basal records of the cycle (src/index.ts:209-212): filtered out of
the combined (carry-forward plus fresh) record list. -/
def basalRecordsOf (fetched prev : List PatientRecord) : List PatientRecord :=
  (identifyInput fetched prev).filter (fun r => r.type == RecordType.insulin_basal)

/-- Basal schedule entry: minute-of-day and rate. -/
structure ScheduleEntry where
  time : Nat
  value : Int
deriving DecidableEq, Repr

/-- Modelled from the spec (granularity left open there; minute-of-day is
chosen and documented here): time-of-day bucket of an epoch-ms
timestamp. -/
def toTimeOfDay (ms : Nat) : Nat :=
  ms / 60000 % 1440

/-- Modelled from the spec (adapter module not in src/): an observed
`insulin_basal` record becomes a (time-of-day, rate) pair. -/
def basalToScheduleEntry (r : PatientRecord) : ScheduleEntry :=
  ⟨toTimeOfDay r.created_at, r.value⟩

/-- Rate recorded for a time-of-day, first occurrence wins. -/
def lookupRate (l : List ScheduleEntry) (t : Nat) : Option Int :=
  (l.find? (fun e => e.time == t)).map (fun e => e.value)

/-- Times-of-day of a schedule. -/
def scheduleTimes (l : List ScheduleEntry) : List Nat :=
  l.map (fun e => e.time)

/-- All times-of-day of the merged schedule, ascending and without
duplicates. -/
def mergedTimes (existing news : List ScheduleEntry) : List Nat :=
  List.insertionSort (fun a b => a ≤ b) (scheduleTimes existing ++ scheduleTimes news).dedup

/-- Modelled from the spec (adapter module not in src/):
`updateBasalProfile` merges newly observed `insulin_basal` records into
an existing basal schedule — replace-by-time-of-day, existing pairs with
no new observation retained unchanged, result sorted ascending by
time-of-day with no duplicate times, the caller's schedule untouched. -/
def updateBasalProfile (existing : List ScheduleEntry)
    (records : List PatientRecord) : List ScheduleEntry :=
  let news := records.map basalToScheduleEntry
  (mergedTimes existing news).map
    (fun t => ⟨t, (((lookupRate news t).orElse (fun _ => lookupRate existing t)).getD 0)⟩)

/-- Modelled from the spec (nightscout module not in src/): a named
profile configuration — the basal schedule (possibly absent) plus all
its other fields, abstracted into `rest`. -/
structure ProfileConfig where
  basal : Option (List ScheduleEntry)
  rest : Int
deriving DecidableEq, Repr

/-- Modelled from the spec (nightscout module not in src/): a profile —
a designated default profile name and a name-keyed store of
configurations (a JavaScript object, embedded as an association list). -/
structure Profile where
  defaultProfile : String
  store : List (String × ProfileConfig)
deriving DecidableEq, Repr

/-- Property access `store[k]` on the store object. -/
def storeLookup (store : List (String × ProfileConfig)) (k : String) :
    Option ProfileConfig :=
  (store.find? (fun kv => kv.fst == k)).map (fun kv => kv.snd)

/-- The spread `{ ...store, [k]: v }`: an existing key keeps its position
and gets the new value, a new key is appended. -/
def storeSet (store : List (String × ProfileConfig)) (k : String)
    (v : ProfileConfig) : List (String × ProfileConfig) :=
  if store.any (fun kv => kv.fst == k) then
    store.map (fun kv => if kv.fst == k then (k, v) else kv)
  else
    store ++ [(k, v)]

/-- Merge base selection (src/index.ts:205-208): the config under
`nightscoutProfileName` when that key is in the store, else the config
under the default profile name; `none` when neither key exists (the
source would throw a TypeError dereferencing `undefined`). -/
def resolveProfileConfig (p : Profile) (name : String) : Option ProfileConfig :=
  match storeLookup p.store name with
  | some c => some c
  | none => storeLookup p.store p.defaultProfile

/-- Result of one `syncDiasendDataToNightscout` cycle.  The injectable
treatments/profile-handlers default to reporters that echo their input,
so `treatments` is the identified treatment list and `profile` is the
updated profile that was passed to the profile handler. -/
structure SyncResult where
  treatments : List Treatment
  profile : Profile
  latestRecordDate : Option Nat
  unprocessedRecords : List PatientRecord
deriving DecidableEq, Repr

/-- `syncDiasendDataToNightscout` (src/index.ts:156-246) after the fetch:
drop glucose records, compute `latestRecordDate` from the fresh records
only, prepend the carry-forwards, identify treatments, merge the basal
records into the profile config chosen by `resolveProfileConfig`, and
return the unprocessed records minus those already carried forward
(`previousRecords.indexOf(record) === -1`, reference identity embedded
as structural membership).  `none` models the TypeError thrown when
neither profile key exists. -/
def syncCore (resolve : Resolver) (fetched prev : List PatientRecord)
    (profile : Profile) (name : String) : Option SyncResult :=
  match resolveProfileConfig profile name with
  | none => none
  | some cfg =>
    let idRes := identifyTreatments resolve (identifyInput fetched prev)
    some
      { treatments := idRes.treatments
        profile :=
          { profile with
              store := storeSet profile.store name
                { cfg with
                    basal := some (updateBasalProfile (cfg.basal.getD [])
                      (basalRecordsOf fetched prev)) } }
        latestRecordDate := latestRecordDateOf fetched
        unprocessedRecords :=
          idRes.unprocessedRecords.filter (fun r => !(decide (r ∈ prev))) }

/-- Modelled from the spec (adapter module not in src/): a glucose record
becomes a sink entry 1:1. -/
def glucoseToEntry (r : PatientRecord) : Entry :=
  ⟨r.created_at, r.value, r.device⟩

/-- Entry list of a glucose cycle (src/index.ts:125-132): the fetched
records restricted to kind glucose, mapped to entries. -/
def glucoseEntriesOf (fetched : List PatientRecord) : List Entry :=
  (fetched.filter (fun r => r.type == RecordType.glucose)).map glucoseToEntry

/-- The `latestRecordDate` of a glucose cycle (src/index.ts:146-152):
head of the reported entries sorted descending by date, null when none
were reported. -/
def latestEntryDateOf (entries : List Entry) : Option Nat :=
  match sortDescBy Entry.date entries with
  | [] => none
  | e :: _ => some e.date

/-- One second in milliseconds: `dayjs(latestRecordDate).add(1, "second")`. -/
def oneSecondMs : Nat := 1000

/-- Cursor update shared by both looper step functions
(src/index.ts:307-312 and 332-338): latest record date plus one second
when a latest date exists, else the previous `dateFrom`. -/
def nextDateFrom (dateFrom : Nat) (latest : Option Nat) : Nat :=
  match latest with
  | some d => d + oneSecondMs
  | none => dateFrom

/-- Next `dateFrom` of the entries loop: the reported entries (what the
injectable entries handler returned) drive the cursor. -/
def entriesLoopNextDateFrom (dateFrom : Nat) (fetched : List PatientRecord)
    (handler : List Entry → List Entry) : Nat :=
  nextDateFrom dateFrom (latestEntryDateOf (handler (glucoseEntriesOf fetched)))

/-- State threaded through the treatments loop: the window lower bound
and the records carried forward. -/
structure TreatmentsLoopState where
  dateFrom : Nat
  previousRecords : List PatientRecord
deriving DecidableEq, Repr

/-- One step of the treatments loop (src/index.ts:321-338): run the
cycle, advance the cursor, carry the unprocessed records forward.
`none` when the cycle threw. -/
def treatmentsLoopStep (s : TreatmentsLoopState) (resolve : Resolver)
    (fetched : List PatientRecord) (profile : Profile) (name : String) :
    Option TreatmentsLoopState :=
  (syncCore resolve fetched s.previousRecords profile name).map
    (fun res => ⟨nextDateFrom s.dateFrom res.latestRecordDate, res.unprocessedRecords⟩)

/-- External collaborator invocations a cycle can make, in order. -/
inductive ExternalCall where
  | obtainDiasendToken
  | fetchPatientData
  | reportEntries
  | fetchNightscoutProfile
  | reportTreatments
  | updateNightscoutProfile
deriving DecidableEq, Repr

/-- Falsy check `!diasendUsername` / `!diasendPassword` on an optional
string: absent or empty. -/
def isBlankCredential : Option String → Bool
  | none => true
  | some s => s.isEmpty

/-- `getDiasendPatientData` (src/index.ts:251-288): throws before any
collaborator call when a credential is blank; otherwise obtains a token,
fetches the patient data (`fetched` stands for the collaborator's
response) and records the two collaborator calls it made. -/
def getDiasendPatientDataChecked (u p : Option String)
    (fetched : List PatientRecord) :
    Except String (List PatientRecord × List ExternalCall) :=
  if isBlankCredential u then .error "Diasend Username not configured"
  else if isBlankCredential p then .error "Diasend Password not configured"
  else .ok (fetched, [.obtainDiasendToken, .fetchPatientData])

/-- Glucose cycle result before the cursor update: reported entries and
their latest date. -/
def syncGlucoseResult (fetched : List PatientRecord)
    (handler : List Entry → List Entry) : List Entry × Option Nat :=
  let reported := handler (glucoseEntriesOf fetched)
  (reported, latestEntryDateOf reported)

/-- `syncDiasendGlucoseToNightscout` (src/index.ts:106-154) with its
external calls traced: a blank credential throws inside the fetch helper
before any collaborator call, so the error carries an empty trace. -/
def syncGlucoseTraced (u p : Option String) (fetched : List PatientRecord)
    (handler : List Entry → List Entry) :
    Option (List Entry × Option Nat) × List ExternalCall :=
  match getDiasendPatientDataChecked u p fetched with
  | .error _ => (none, [])
  | .ok (recs, calls) => (some (syncGlucoseResult recs handler), calls ++ [.reportEntries])

/-- `syncDiasendDataToNightscout` with its external calls traced: a blank
credential throws inside the fetch helper before any collaborator call;
after a successful fetch the profile is loaded and, when the cycle
completes, the treatments report and profile update are dispatched. -/
def syncDataTraced (u p : Option String) (resolve : Resolver)
    (fetched prev : List PatientRecord) (profile : Profile) (name : String) :
    Option SyncResult × List ExternalCall :=
  match getDiasendPatientDataChecked u p fetched with
  | .error _ => (none, [])
  | .ok (recs, calls) =>
    match syncCore resolve recs prev profile name with
    | none => (none, calls ++ [.fetchNightscoutProfile])
    | some res =>
      (some res, calls ++ [.fetchNightscoutProfile, .reportTreatments, .updateNightscoutProfile])

/-- Observable outcome of `startSynchronization`: whether each of the two
loopers was constructed and started, and the external calls made by each
loop's first cycle. -/
structure StartSynchronizationResult where
  entriesLoopStarted : Bool
  treatmentsLoopStarted : Bool
  firstEntriesCycleCalls : List ExternalCall
  firstTreatmentsCycleCalls : List ExternalCall
deriving DecidableEq, Repr

/-- `startSynchronization` (src/index.ts:290-348): no credential check of
its own — both loopers are constructed and `.loop(...)` is invoked
unconditionally; the credential check only runs inside each cycle. -/
def startSynchronization (u p : Option String) (resolve : Resolver)
    (fetchedE fetchedT prev : List PatientRecord) (profile : Profile)
    (name : String) (handler : List Entry → List Entry) :
    StartSynchronizationResult :=
  { entriesLoopStarted := true
    treatmentsLoopStarted := true
    firstEntriesCycleCalls := (syncGlucoseTraced u p fetchedE handler).snd
    firstTreatmentsCycleCalls := (syncDataTraced u p resolve fetchedT prev profile name).snd }

/-- Outcome of `startPumpSettingsSynchronization` when it returns. -/
inductive PumpSettingsStart where
  | loopStarted
  | skippedNoProfileName
deriving DecidableEq, Repr

/-- `startPumpSettingsSynchronization` (src/index.ts:350-402): blank
credentials throw before the looper is constructed; a blank profile name
returns without starting a loop; otherwise the looper is started. -/
def startPumpSettingsSynchronization (u p profileName : Option String) :
    Except String PumpSettingsStart :=
  if isBlankCredential u then .error "Diasend Username not configured"
  else if isBlankCredential p then .error "Diasend Password not configured"
  else if isBlankCredential profileName then .ok .skippedNoProfileName
  else .ok .loopStarted

/-- Whether a startup attempt threw. -/
def startupFailed {α : Type} : Except String α → Bool
  | .error _ => true
  | .ok _ => false

/-- Fixture: a bolus record used by counterexamples and witnesses. -/
def cexRecord : PatientRecord :=
  { type := .insulin_bolus, created_at := 100, device := 1, value := 2, uid := 7 }

/-- Fixture: a carb record. -/
def witCarb : PatientRecord :=
  { type := .carb, created_at := 90, device := 1, value := 30, uid := 1 }

/-- Fixture: a bolus record correlating with `witCarb`. -/
def witBolus : PatientRecord :=
  { type := .insulin_bolus, created_at := 95, device := 1, value := 4, uid := 2 }

/-- Fixture: a glucose record. -/
def witGlucose : PatientRecord :=
  { type := .glucose, created_at := 60, device := 1, value := 110, uid := 3 }

/-- Fixture: a profile with a default entry. -/
def cexProfile : Profile :=
  { defaultProfile := "Default"
    store := [("Default", { basal := some [], rest := 5 })] }

/-- Fixture: a profile with a default entry and a distinct target entry. -/
def witProfile : Profile :=
  { defaultProfile := "Default"
    store := [("Default", { basal := some [], rest := 5 }),
              ("Target", { basal := some [⟨10, 1⟩], rest := 9 })] }

/-- Fixture: a resolver that throws on every record. -/
def failingResolve : Resolver :=
  fun _ _ => .failed "could not resolve"

/-- Fixture: a resolver that turns every bolus into a meal bolus paired
with record 1 and skips everything else. -/
def witResolver : Resolver :=
  fun r _ =>
    if r.type == RecordType.insulin_bolus then .resolved (.mealBolus r.uid 1)
    else .skipped

/-- Fixture: the identity entries handler (the default handler echoes the
entries the sink accepted). -/
def idEntriesHandler : List Entry → List Entry :=
  fun es => es

theorem mem_insertDescBy {α : Type} (key : α → Nat) (x a : α) (l : List α) :
    a ∈ insertDescBy key x l ↔ a = x ∨ a ∈ l := by
  induction l with
  | nil => simp [insertDescBy]
  | cons y ys ih =>
    by_cases h : key y ≤ key x
    · simp [insertDescBy, h]
    · simp only [insertDescBy, if_neg h, List.mem_cons, ih]
      tauto

theorem mem_sortDescBy {α : Type} (key : α → Nat) (a : α) (l : List α) :
    a ∈ sortDescBy key l ↔ a ∈ l := by
  induction l with
  | nil => simp [sortDescBy]
  | cons x xs ih => simp [sortDescBy, mem_insertDescBy, ih]

theorem insertDescBy_ne_nil {α : Type} (key : α → Nat) (x : α) (l : List α) :
    insertDescBy key x l ≠ [] := by
  cases l with
  | nil => simp [insertDescBy]
  | cons y ys => by_cases h : key y ≤ key x <;> simp [insertDescBy, h]

theorem sortDescBy_eq_nil {α : Type} (key : α → Nat) (l : List α)
    (h : sortDescBy key l = []) : l = [] := by
  cases l with
  | nil => rfl
  | cons x xs => exact absurd h (insertDescBy_ne_nil key x (sortDescBy key xs))

theorem identify_foldl (resolve : Resolver) (ctx : List PatientRecord) :
    ∀ (l : List PatientRecord) (ts : List Treatment) (us : List PatientRecord),
    l.foldl (identifyStep resolve ctx) ⟨ts, us⟩ =
      ⟨ts ++ l.filterMap (fun r => resolveOk (resolve r ctx)),
       us ++ l.filter (fun r => resolveFailed (resolve r ctx))⟩ := by
  intro l
  induction l with
  | nil => intro ts us; simp
  | cons r l ih =>
    intro ts us
    rw [List.foldl_cons]
    cases h : resolve r ctx with
    | resolved t =>
      rw [show identifyStep resolve ctx ⟨ts, us⟩ r = ⟨ts ++ [t], us⟩ by
            simp [identifyStep, h]]
      rw [ih]
      simp [List.filterMap_cons, List.filter_cons, h, resolveOk, resolveFailed]
    | skipped =>
      rw [show identifyStep resolve ctx ⟨ts, us⟩ r = ⟨ts, us⟩ by
            simp [identifyStep, h]]
      rw [ih]
      simp [List.filterMap_cons, List.filter_cons, h, resolveOk, resolveFailed]
    | failed msg =>
      rw [show identifyStep resolve ctx ⟨ts, us⟩ r = ⟨ts, us ++ [r]⟩ by
            simp [identifyStep, h]]
      rw [ih]
      simp [List.filterMap_cons, List.filter_cons, h, resolveOk, resolveFailed]

theorem identifyTreatments_eq (resolve : Resolver) (records : List PatientRecord) :
    identifyTreatments resolve records =
      ⟨(records.filter isCarbOrBolus).filterMap
         (fun r => resolveOk (resolve r (records.filter isCarbOrBolus))),
       (records.filter isCarbOrBolus).filter
         (fun r => resolveFailed (resolve r (records.filter isCarbOrBolus)))⟩ := by
  unfold identifyTreatments
  simpa using
    identify_foldl resolve (records.filter isCarbOrBolus)
      (records.filter isCarbOrBolus) [] []

theorem uid_inj_of_nodup (records : List PatientRecord)
    (hnodup : (records.map PatientRecord.uid).Nodup)
    {a b : PatientRecord} (ha : a ∈ records) (hb : b ∈ records)
    (h : a.uid = b.uid) : a = b := by
  by_contra hne
  have hp : records.Pairwise (fun x y => x.uid ≠ y.uid) :=
    (List.pairwise_map).mp hnodup
  exact (hp.forall (fun {x y} hxy => Ne.symm hxy) ha hb hne) h

theorem find?_replace_self (s : List (String × ProfileConfig)) (k : String)
    (v : ProfileConfig) (h : s.any (fun kv => kv.fst == k) = true) :
    (s.map (fun kv => if kv.fst == k then (k, v) else kv)).find?
      (fun kv => kv.fst == k) = some (k, v) := by
  induction s with
  | nil => simp at h
  | cons kv s ih =>
    by_cases hkv : (kv.fst == k) = true
    · simp only [List.map_cons, if_pos hkv]
      rw [List.find?_cons_of_pos _ (by simp)]
    · have h2 : s.any (fun kv => kv.fst == k) = true := by
        simpa [List.any_cons, hkv] using h
      simp only [List.map_cons, if_neg hkv]
      rw [List.find?_cons_of_neg _ (by simpa using hkv)]
      exact ih h2

theorem find?_append_single (s : List (String × ProfileConfig)) (k : String)
    (v : ProfileConfig) (h : s.any (fun kv => kv.fst == k) = false) :
    (s ++ [(k, v)]).find? (fun kv => kv.fst == k) = some (k, v) := by
  induction s with
  | nil => simp
  | cons kv s ih =>
    have hkv : (kv.fst == k) = false := by
      by_contra hc
      simp only [List.any_cons] at h
      rcases Bool.or_eq_false_iff.mp h with ⟨h1, _⟩
      exact hc h1
    have h2 : s.any (fun kv => kv.fst == k) = false := by
      simp only [List.any_cons] at h
      exact (Bool.or_eq_false_iff.mp h).2
    rw [List.cons_append, List.find?_cons_of_neg _ (by simpa using hkv)]
    exact ih h2

theorem find?_replace_ne (s : List (String × ProfileConfig)) (k k' : String)
    (v : ProfileConfig) (hk : k' ≠ k) :
    (s.map (fun kv => if kv.fst == k then (k, v) else kv)).find?
      (fun kv => kv.fst == k') = s.find? (fun kv => kv.fst == k') := by
  induction s with
  | nil => simp
  | cons kv s ih =>
    by_cases hkv : kv.fst == k
    · have hfst : kv.fst = k := by simpa using hkv
      have hne : (kv.fst == k') = false := by
        simp [hfst, (Ne.symm hk)]
      have hne2 : ((k : String) == k') = false := by
        simp [Ne.symm hk]
      simp only [List.map_cons, if_pos hkv]
      rw [List.find?_cons_of_neg _ (by simpa using hne2),
        List.find?_cons_of_neg _ (by simpa using hne)]
      exact ih
    · simp only [List.map_cons, if_neg hkv]
      by_cases hk' : kv.fst == k'
      · rw [List.find?_cons_of_pos _ (by simpa using hk'),
          List.find?_cons_of_pos _ (by simpa using hk')]
      · rw [List.find?_cons_of_neg _ (by simpa using hk'),
          List.find?_cons_of_neg _ (by simpa using hk')]
        exact ih

theorem find?_append_ne (s : List (String × ProfileConfig)) (k k' : String)
    (v : ProfileConfig) (hk : k' ≠ k) :
    (s ++ [(k, v)]).find? (fun kv => kv.fst == k') =
      s.find? (fun kv => kv.fst == k') := by
  induction s with
  | nil => simp [Ne.symm hk]
  | cons kv s ih =>
    by_cases hk' : kv.fst == k'
    · rw [List.cons_append, List.find?_cons_of_pos _ (by simpa using hk'),
        List.find?_cons_of_pos _ (by simpa using hk')]
    · rw [List.cons_append, List.find?_cons_of_neg _ (by simpa using hk'),
        List.find?_cons_of_neg _ (by simpa using hk')]
      exact ih

theorem storeLookup_storeSet_self (s : List (String × ProfileConfig))
    (k : String) (v : ProfileConfig) :
    storeLookup (storeSet s k v) k = some v := by
  unfold storeLookup storeSet
  by_cases h : s.any (fun kv => kv.fst == k)
  · rw [if_pos h, find?_replace_self s k v h]
    rfl
  · rw [if_neg h, find?_append_single s k v (by
      simp only [Bool.not_eq_true] at h
      exact h)]
    rfl

theorem storeLookup_storeSet_ne (s : List (String × ProfileConfig))
    (k k' : String) (v : ProfileConfig) (hk : k' ≠ k) :
    storeLookup (storeSet s k v) k' = storeLookup s k' := by
  unfold storeLookup storeSet
  by_cases h : s.any (fun kv => kv.fst == k)
  · rw [if_pos h, find?_replace_ne s k k' v hk]
  · rw [if_neg h, find?_append_ne s k k' v hk]

theorem syncCore_eq_of_config (resolve : Resolver)
    (fetched prev : List PatientRecord) (profile : Profile) (name : String)
    (cfg : ProfileConfig) (hc : resolveProfileConfig profile name = some cfg) :
    syncCore resolve fetched prev profile name = some
      { treatments := (identifyTreatments resolve (identifyInput fetched prev)).treatments
        profile :=
          { profile with
              store := storeSet profile.store name
                { cfg with
                    basal := some (updateBasalProfile (cfg.basal.getD [])
                      (basalRecordsOf fetched prev)) } }
        latestRecordDate := latestRecordDateOf fetched
        unprocessedRecords :=
          (identifyTreatments resolve (identifyInput fetched prev)).unprocessedRecords.filter
            (fun r => !(decide (r ∈ prev))) } := by
  unfold syncCore
  rw [hc]

theorem syncCore_some_config (resolve : Resolver)
    (fetched prev : List PatientRecord) (profile : Profile) (name : String)
    (res : SyncResult) (h : syncCore resolve fetched prev profile name = some res) :
    ∃ cfg, resolveProfileConfig profile name = some cfg := by
  unfold syncCore at h
  cases hc : resolveProfileConfig profile name with
  | none => rw [hc] at h; simp at h
  | some cfg => exact ⟨cfg, rfl⟩

theorem syncCore_latest (resolve : Resolver)
    (fetched prev : List PatientRecord) (profile : Profile) (name : String)
    (res : SyncResult) (h : syncCore resolve fetched prev profile name = some res) :
    res.latestRecordDate = latestRecordDateOf fetched := by
  obtain ⟨cfg, hc⟩ := syncCore_some_config resolve fetched prev profile name res h
  rw [syncCore_eq_of_config resolve fetched prev profile name cfg hc] at h
  cases h
  rfl

theorem syncCore_unprocessed (resolve : Resolver)
    (fetched prev : List PatientRecord) (profile : Profile) (name : String)
    (res : SyncResult) (h : syncCore resolve fetched prev profile name = some res) :
    res.unprocessedRecords =
      (identifyTreatments resolve (identifyInput fetched prev)).unprocessedRecords.filter
        (fun r => !(decide (r ∈ prev))) := by
  obtain ⟨cfg, hc⟩ := syncCore_some_config resolve fetched prev profile name res h
  rw [syncCore_eq_of_config resolve fetched prev profile name cfg hc] at h
  cases h
  rfl

theorem latestRecordDateOf_mem (fetched : List PatientRecord) (d : Nat)
    (h : latestRecordDateOf fetched = some d) :
    ∃ r, r ∈ freshNonGlucose fetched ∧ r.created_at = d := by
  unfold latestRecordDateOf at h
  cases hs : sortDescBy PatientRecord.created_at (freshNonGlucose fetched) with
  | nil => rw [hs] at h; simp at h
  | cons r rest =>
    rw [hs] at h
    have hr : r ∈ sortDescBy PatientRecord.created_at (freshNonGlucose fetched) := by
      rw [hs]; exact List.mem_cons_self r rest
    exact ⟨r, (mem_sortDescBy _ _ _).mp hr, by simpa using h⟩

theorem latestRecordDateOf_isSome (fetched : List PatientRecord)
    (h : freshNonGlucose fetched ≠ []) :
    ∃ d, latestRecordDateOf fetched = some d := by
  unfold latestRecordDateOf
  cases hs : sortDescBy PatientRecord.created_at (freshNonGlucose fetched) with
  | nil => exact absurd (sortDescBy_eq_nil _ _ hs) h
  | cons r rest => exact ⟨r.created_at, rfl⟩

theorem latestRecordDateOf_none (fetched : List PatientRecord)
    (h : freshNonGlucose fetched = []) :
    latestRecordDateOf fetched = none := by
  unfold latestRecordDateOf
  rw [h]
  rfl

theorem latestEntryDateOf_mem (entries : List Entry) (d : Nat)
    (h : latestEntryDateOf entries = some d) :
    ∃ e, e ∈ entries ∧ e.date = d := by
  unfold latestEntryDateOf at h
  cases hs : sortDescBy Entry.date entries with
  | nil => rw [hs] at h; simp at h
  | cons e rest =>
    rw [hs] at h
    have he : e ∈ sortDescBy Entry.date entries := by
      rw [hs]; exact List.mem_cons_self e rest
    exact ⟨e, (mem_sortDescBy _ _ _).mp he, by simpa using h⟩

theorem latestEntryDateOf_isSome (entries : List Entry) (h : entries ≠ []) :
    ∃ d, latestEntryDateOf entries = some d := by
  unfold latestEntryDateOf
  cases hs : sortDescBy Entry.date entries with
  | nil => exact absurd (sortDescBy_eq_nil _ _ hs) h
  | cons e rest => exact ⟨e.date, rfl⟩

theorem mergedTimes_sorted (e n : List ScheduleEntry) :
    List.Sorted (fun a b => a ≤ b) (mergedTimes e n) :=
  List.sorted_insertionSort _ _

theorem mergedTimes_nodup (e n : List ScheduleEntry) :
    (mergedTimes e n).Nodup :=
  ((List.perm_insertionSort _ _).nodup_iff).mpr (List.nodup_dedup _)

theorem mem_mergedTimes (e n : List ScheduleEntry) (a : Nat) :
    a ∈ mergedTimes e n ↔ a ∈ scheduleTimes e ∨ a ∈ scheduleTimes n := by
  simp [mergedTimes, List.mem_insertionSort, List.mem_dedup]

theorem sorted_nodup_ext (l₁ l₂ : List Nat)
    (s₁ : List.Sorted (fun a b => a ≤ b) l₁)
    (s₂ : List.Sorted (fun a b => a ≤ b) l₂)
    (n₁ : l₁.Nodup) (n₂ : l₂.Nodup) (hm : ∀ a, a ∈ l₁ ↔ a ∈ l₂) : l₁ = l₂ :=
  List.eq_of_perm_of_sorted ((List.perm_ext_iff_of_nodup n₁ n₂).mpr hm) s₁ s₂

theorem scheduleTimes_updateBasalProfile (existing : List ScheduleEntry)
    (records : List PatientRecord) :
    scheduleTimes (updateBasalProfile existing records) =
      mergedTimes existing (records.map basalToScheduleEntry) := by
  simp only [updateBasalProfile, scheduleTimes, List.map_map, Function.comp]
  exact List.map_id _

theorem mergedTimes_update (existing : List ScheduleEntry)
    (records : List PatientRecord) :
    mergedTimes (updateBasalProfile existing records)
        (records.map basalToScheduleEntry) =
      mergedTimes existing (records.map basalToScheduleEntry) := by
  apply sorted_nodup_ext _ _ (mergedTimes_sorted _ _) (mergedTimes_sorted _ _)
    (mergedTimes_nodup _ _) (mergedTimes_nodup _ _)
  intro a
  rw [mem_mergedTimes, mem_mergedTimes, scheduleTimes_updateBasalProfile,
    mem_mergedTimes]
  tauto

theorem lookupRate_map (T : List Nat) (g : Nat → Int) (t : Nat)
    (hn : T.Nodup) (ht : t ∈ T) :
    lookupRate (T.map (fun u => ⟨u, g u⟩)) t = some (g t) := by
  induction T with
  | nil => simp at ht
  | cons u T ih =>
    rw [List.map_cons]
    by_cases h : u = t
    · subst h
      unfold lookupRate
      rw [List.find?_cons_of_pos _ (by simp)]
      rfl
    · unfold lookupRate
      rw [List.find?_cons_of_neg _ (by simpa using h)]
      have ht2 : t ∈ T := by
        rcases List.mem_cons.mp ht with h1 | h1
        · exact absurd h1.symm h
        · exact h1
      exact ih (List.Nodup.of_cons hn) ht2

theorem updateBasalProfile_def (existing : List ScheduleEntry)
    (records : List PatientRecord) :
    updateBasalProfile existing records =
      (mergedTimes existing (records.map basalToScheduleEntry)).map
        (fun t => ⟨t, (((lookupRate (records.map basalToScheduleEntry) t).orElse
          (fun _ => lookupRate existing t)).getD 0)⟩) := rfl

/-- Claim C9: the basal merge is idempotent — merging the same observed
records twice yields the same schedule as merging them once — and the
merged schedule is sorted ascending by time-of-day with no duplicate
time-of-day entries (expressed as strict pairwise ordering). -/
theorem updateBasalProfile_idempotent_sorted (existing : List ScheduleEntry)
    (records : List PatientRecord) :
    updateBasalProfile (updateBasalProfile existing records) records =
      updateBasalProfile existing records ∧
    List.Pairwise (fun a b => a.time < b.time)
      (updateBasalProfile existing records) := by
  constructor
  · rw [updateBasalProfile_def (updateBasalProfile existing records) records,
      mergedTimes_update]
    conv_rhs => rw [updateBasalProfile_def existing records]
    apply List.map_congr_left
    intro t ht
    cases hl : lookupRate (records.map basalToScheduleEntry) t with
    | some v => simp [hl, Option.orElse]
    | none =>
      have hS : lookupRate (updateBasalProfile existing records) t =
          some (((lookupRate (records.map basalToScheduleEntry) t).orElse
            (fun _ => lookupRate existing t)).getD 0) := by
        rw [updateBasalProfile_def]
        exact lookupRate_map
          (mergedTimes existing (records.map basalToScheduleEntry)) _ t
          (mergedTimes_nodup _ _) ht
      simp [hl, hS, Option.orElse]
  · rw [updateBasalProfile_def]
    rw [List.pairwise_map]
    exact (mergedTimes_sorted _ _).lt_of_le (mergedTimes_nodup _ _)

/-- Claim C1: every carb or bolus record given to `identifyTreatments`
ends up in exactly one of the two outputs — it contributes to a produced
treatment (as the record it was resolved from, or as the correlated
counterpart of a meal bolus) or it is an unprocessed record, never both
and never neither.  The hypotheses state the contract of the
spec-modelled resolver: record identities are unique in the batch; a
null resolution happens exactly for the consumed counterpart of a meal
bolus emitted for another record of the batch; an emitted treatment
references the record it was resolved from, and its counterpart, if any,
is a record of the batch whose own resolution returned null. -/
theorem identifyTreatments_partition (resolve : Resolver)
    (records : List PatientRecord)
    (hnodup : (records.map PatientRecord.uid).Nodup)
    (hskip : ∀ r ∈ records.filter isCarbOrBolus,
      resolve r (records.filter isCarbOrBolus) = .skipped →
      ∃ r2 ∈ records.filter isCarbOrBolus, ∃ t,
        resolve r2 (records.filter isCarbOrBolus) = .resolved t ∧
        t.counterpartUid = some r.uid)
    (hres : ∀ r ∈ records.filter isCarbOrBolus, ∀ t,
      resolve r (records.filter isCarbOrBolus) = .resolved t →
      t.resolvedUid = r.uid ∧
      (∀ u, t.counterpartUid = some u →
        ∃ r2 ∈ records.filter isCarbOrBolus, r2.uid = u ∧
          resolve r2 (records.filter isCarbOrBolus) = .skipped)) :
    ∀ r ∈ records, isCarbOrBolus r = true →
      (contributesTo r (identifyTreatments resolve records).treatments = true ∧
        r ∉ (identifyTreatments resolve records).unprocessedRecords) ∨
      (contributesTo r (identifyTreatments resolve records).treatments = false ∧
        r ∈ (identifyTreatments resolve records).unprocessedRecords) := by
  intro r hr hcb
  have hrf : r ∈ records.filter isCarbOrBolus := List.mem_filter.mpr ⟨hr, hcb⟩
  rw [identifyTreatments_eq]
  cases h0 : resolve r (records.filter isCarbOrBolus) with
  | resolved t =>
    left
    constructor
    · rw [contributesTo, List.any_eq_true]
      refine ⟨t, List.mem_filterMap.mpr ⟨r, hrf, by rw [h0]; rfl⟩, ?_⟩
      have huid := (hres r hrf t h0).1
      simp [huid]
    · intro hmem
      have := (List.mem_filter.mp hmem).2
      rw [h0] at this
      simp [resolveFailed] at this
  | skipped =>
    left
    constructor
    · rw [contributesTo, List.any_eq_true]
      obtain ⟨r2, hr2, t, hres2, hcp⟩ := hskip r hrf h0
      refine ⟨t, List.mem_filterMap.mpr ⟨r2, hr2, by rw [hres2]; rfl⟩, ?_⟩
      simp [hcp]
    · intro hmem
      have := (List.mem_filter.mp hmem).2
      rw [h0] at this
      simp [resolveFailed] at this
  | failed msg =>
    right
    constructor
    · rw [contributesTo]
      rw [List.any_eq_false]
      intro t htmem
      obtain ⟨r2, hr2, hok⟩ := List.mem_filterMap.mp htmem
      have hr2m : r2 ∈ records := (List.mem_filter.mp hr2).1
      cases h2 : resolve r2 (records.filter isCarbOrBolus) with
      | resolved t2 =>
        rw [h2] at hok
        have ht2 : t2 = t := by simpa [resolveOk] using hok
        subst ht2
        obtain ⟨huid, hcp⟩ := hres r2 hr2 t2 h2
        rw [Bool.not_eq_true]
        simp only [Bool.or_eq_false_iff, beq_eq_false_iff_ne, ne_eq]
        constructor
        · intro heq
          have : r2 = r :=
            uid_inj_of_nodup records hnodup hr2m hr (by rw [← huid]; exact heq)
          subst this
          rw [h0] at h2
          cases h2
        · intro heq
          obtain ⟨r3, hr3, hu3, hsk3⟩ := hcp r.uid heq
          have : r3 = r :=
            uid_inj_of_nodup records hnodup (List.mem_filter.mp hr3).1 hr hu3
          subst this
          rw [h0] at hsk3
          cases hsk3
      | skipped => rw [h2] at hok; simp [resolveOk] at hok
      | failed m2 => rw [h2] at hok; simp [resolveOk] at hok
    · exact List.mem_filter.mpr ⟨hrf, by rw [h0]; rfl⟩

/-- Claim C5: a resolver exception is per-record — the failing record is
put into `unprocessedRecords`, the unprocessed records are exactly the
records whose resolution threw (in batch order), and the produced
treatments are exactly the successful resolutions of the remaining
records (so the other records are processed as if only the failing
record had failed, and no exception escapes `identifyTreatments`). -/
theorem identifyTreatments_failure_isolated (resolve : Resolver)
    (records : List PatientRecord) (r0 : PatientRecord) (msg : String)
    (hr : r0 ∈ records.filter isCarbOrBolus)
    (hfail : resolve r0 (records.filter isCarbOrBolus) = .failed msg) :
    r0 ∈ (identifyTreatments resolve records).unprocessedRecords ∧
    (identifyTreatments resolve records).unprocessedRecords =
      (records.filter isCarbOrBolus).filter
        (fun r => resolveFailed (resolve r (records.filter isCarbOrBolus))) ∧
    (identifyTreatments resolve records).treatments =
      (records.filter isCarbOrBolus).filterMap
        (fun r => resolveOk (resolve r (records.filter isCarbOrBolus))) := by
  rw [identifyTreatments_eq]
  refine ⟨?_, rfl, rfl⟩
  exact List.mem_filter.mpr ⟨hr, by rw [hfail]; rfl⟩

/-- Claim C2, counterexample: a cycle that fetches a single bolus record
whose resolution throws reports nothing (`treatments = []`) and defers
the record (`unprocessedRecords = [cexRecord]`), yet `latestRecordDate`
is that unresolved record's timestamp — the cursor is computed over all
freshly fetched non-glucose records, not only over resolved ones. -/
theorem syncData_cursor_counts_unprocessed :
    syncCore failingResolve [cexRecord] [] cexProfile "Default" =
      some { treatments := []
             profile := cexProfile
             latestRecordDate := some 100
             unprocessedRecords := [cexRecord] } := by
  decide

/-- Claim C2, amended: `latestRecordDate` is computed from the freshly
fetched records alone — all non-glucose fresh records count, whether or
not they were resolved — and the carried-forward `previousRecords` never
contribute (the right-hand side depends only on `fetched`). -/
theorem syncData_latest_over_all_fresh (resolve : Resolver)
    (fetched prev : List PatientRecord) (profile : Profile) (name : String)
    (res : SyncResult)
    (h : syncCore resolve fetched prev profile name = some res) :
    res.latestRecordDate = latestRecordDateOf fetched :=
  syncCore_latest resolve fetched prev profile name res h

theorem syncData_latest_over_all_fresh_witness :
    syncCore failingResolve [witBolus] [witCarb] cexProfile "Default" =
      some { treatments := []
             profile := cexProfile
             latestRecordDate := some 95
             unprocessedRecords := [witBolus] } ∧
    ({ treatments := []
       profile := cexProfile
       latestRecordDate := some 95
       unprocessedRecords := [witBolus] } : SyncResult).latestRecordDate =
      latestRecordDateOf [witBolus] :=
  ⟨by decide,
   syncData_latest_over_all_fresh failingResolve [witBolus] [witCarb]
     cexProfile "Default" _ (by decide)⟩

/-- Claim C4: a record identity present in the `previousRecords` input of
a cycle never appears in the `unprocessedRecords` the cycle returns. -/
theorem syncData_no_duplicate_carry_forward (resolve : Resolver)
    (fetched prev : List PatientRecord) (profile : Profile) (name : String)
    (res : SyncResult)
    (h : syncCore resolve fetched prev profile name = some res) :
    ∀ r ∈ prev, r ∉ res.unprocessedRecords := by
  intro r hr hmem
  rw [syncCore_unprocessed resolve fetched prev profile name res h] at hmem
  have h2 := (List.mem_filter.mp hmem).2
  simp only [Bool.not_eq_eq_eq_not, Bool.not_true, decide_eq_false_iff_not] at h2
  exact h2 hr

theorem syncData_no_duplicate_carry_forward_witness :
    syncCore failingResolve [] [cexRecord] cexProfile "Default" =
      some { treatments := []
             profile := cexProfile
             latestRecordDate := none
             unprocessedRecords := [] } ∧
    (∀ r ∈ [cexRecord],
      r ∉ ({ treatments := []
             profile := cexProfile
             latestRecordDate := none
             unprocessedRecords := [] } : SyncResult).unprocessedRecords) :=
  ⟨by decide,
   syncData_no_duplicate_carry_forward failingResolve [] [cexRecord]
     cexProfile "Default" _ (by decide)⟩

/-- Claim C3: under the precondition that every record fetched or echoed
for the window carries a timestamp no earlier than `dateFrom`, both
looper step functions advance the cursor strictly (to the latest
processed timestamp plus one second) when the cycle processed at least
one record, and leave it unchanged when the cycle processed none. -/
theorem cursor_monotonicity (dateFrom : Nat)
    (fetchedE fetchedT prev : List PatientRecord)
    (handler : List Entry → List Entry) (resolve : Resolver)
    (profile : Profile) (name : String) (s2 : TreatmentsLoopState)
    (hE : ∀ e ∈ handler (glucoseEntriesOf fetchedE), dateFrom ≤ e.date)
    (hT : ∀ r ∈ fetchedT, dateFrom ≤ r.created_at)
    (hstep : treatmentsLoopStep ⟨dateFrom, prev⟩ resolve fetchedT profile name =
      some s2) :
    (handler (glucoseEntriesOf fetchedE) ≠ [] →
      dateFrom < entriesLoopNextDateFrom dateFrom fetchedE handler) ∧
    (handler (glucoseEntriesOf fetchedE) = [] →
      entriesLoopNextDateFrom dateFrom fetchedE handler = dateFrom) ∧
    (freshNonGlucose fetchedT ≠ [] → dateFrom < s2.dateFrom) ∧
    (freshNonGlucose fetchedT = [] → s2.dateFrom = dateFrom) := by
  obtain ⟨res, hres, hs2⟩ := Option.map_eq_some'.mp hstep
  have hlat := syncCore_latest resolve fetchedT prev profile name res hres
  refine ⟨?_, ?_, ?_, ?_⟩
  · intro hne
    obtain ⟨d, hd⟩ := latestEntryDateOf_isSome _ hne
    obtain ⟨e, he, hed⟩ := latestEntryDateOf_mem _ d hd
    have hge := hE e he
    rw [entriesLoopNextDateFrom, hd]
    simp only [nextDateFrom, oneSecondMs]
    omega
  · intro h0
    rw [entriesLoopNextDateFrom, h0]
    rfl
  · intro hne
    obtain ⟨d, hd⟩ := latestRecordDateOf_isSome fetchedT hne
    obtain ⟨r0, hr0, hr0d⟩ := latestRecordDateOf_mem fetchedT d hd
    have hge := hT r0 (List.mem_filter.mp hr0).1
    rw [← hs2]
    simp only [nextDateFrom, hlat, hd, oneSecondMs]
    omega
  · intro h0
    rw [← hs2]
    simp only [nextDateFrom, hlat, latestRecordDateOf_none fetchedT h0]

theorem cursor_monotonicity_witness :
    (∀ e ∈ idEntriesHandler (glucoseEntriesOf [witGlucose]), 50 ≤ e.date) ∧
    (∀ r ∈ [cexRecord], 50 ≤ r.created_at) ∧
    treatmentsLoopStep ⟨50, []⟩ failingResolve [cexRecord] cexProfile "Default" =
      some ⟨1100, [cexRecord]⟩ ∧
    ((idEntriesHandler (glucoseEntriesOf [witGlucose]) ≠ [] →
        50 < entriesLoopNextDateFrom 50 [witGlucose] idEntriesHandler) ∧
      (idEntriesHandler (glucoseEntriesOf [witGlucose]) = [] →
        entriesLoopNextDateFrom 50 [witGlucose] idEntriesHandler = 50) ∧
      (freshNonGlucose [cexRecord] ≠ [] →
        50 < (⟨1100, [cexRecord]⟩ : TreatmentsLoopState).dateFrom) ∧
      (freshNonGlucose [cexRecord] = [] →
        (⟨1100, [cexRecord]⟩ : TreatmentsLoopState).dateFrom = 50)) :=
  ⟨by decide, by decide, by decide,
   cursor_monotonicity 50 [witGlucose] [cexRecord] [] idEntriesHandler
     failingResolve cexProfile "Default" ⟨1100, [cexRecord]⟩
     (by decide) (by decide) (by decide)⟩

theorem freshNonGlucose_filter (fetched : List PatientRecord) :
    freshNonGlucose (fetched.filter (fun r => !(r.type == RecordType.glucose))) =
      freshNonGlucose fetched := by
  unfold freshNonGlucose
  rw [List.filter_filter]
  simp

/-- Claim C7: glucose records never enter the treatments+profile
pipeline — a glucose record in the list passed to `identifyTreatments`
can only come from the carry-forwards, never from the fresh fetch; every
record counted among the basal records has kind `insulin_basal`; and the
whole cycle result (treatments, profile, `latestRecordDate`, unprocessed
records) is unchanged if the glucose records are removed from the fetch
beforehand. -/
theorem treatments_pipeline_excludes_glucose (resolve : Resolver)
    (fetched prev : List PatientRecord) (profile : Profile) (name : String) :
    (∀ r ∈ identifyInput fetched prev, r.type = RecordType.glucose → r ∈ prev) ∧
    (∀ r ∈ basalRecordsOf fetched prev, r.type = RecordType.insulin_basal) ∧
    syncCore resolve fetched prev profile name =
      syncCore resolve (fetched.filter (fun r => !(r.type == RecordType.glucose)))
        prev profile name := by
  refine ⟨?_, ?_, ?_⟩
  · intro r hrm hg
    rcases List.mem_append.mp hrm with hp | hf
    · exact hp
    · exfalso
      have h2 := (List.mem_filter.mp ((mem_sortDescBy _ _ _).mp hf)).2
      rw [hg] at h2
      simp at h2
  · intro r hrm
    have h2 := (List.mem_filter.mp hrm).2
    simpa using h2
  · unfold syncCore identifyInput basalRecordsOf latestRecordDateOf identifyInput
    rw [freshNonGlucose_filter]

/-- Claim C8: the profile handed to the profile handler differs from the
loaded profile only in the basal schedule of the store entry under the
target profile name — the default profile name, every store entry under
any other key, and the non-basal fields of the target config are
unchanged (and, the embedding being purely functional, the loaded
profile value itself is untouched). -/
theorem syncData_profile_frame (resolve : Resolver)
    (fetched prev : List PatientRecord) (profile : Profile) (name : String)
    (cfg : ProfileConfig) (res : SyncResult)
    (hc : storeLookup profile.store name = some cfg)
    (h : syncCore resolve fetched prev profile name = some res) :
    res.profile.defaultProfile = profile.defaultProfile ∧
    (∀ k, k ≠ name → storeLookup res.profile.store k = storeLookup profile.store k) ∧
    storeLookup res.profile.store name =
      some { cfg with
               basal := some (updateBasalProfile (cfg.basal.getD [])
                 (basalRecordsOf fetched prev)) } := by
  have hrc : resolveProfileConfig profile name = some cfg := by
    unfold resolveProfileConfig
    rw [hc]
  rw [syncCore_eq_of_config resolve fetched prev profile name cfg hrc] at h
  cases h
  refine ⟨rfl, ?_, ?_⟩
  · intro k hk
    exact storeLookup_storeSet_ne profile.store name k _ hk
  · exact storeLookup_storeSet_self profile.store name _

theorem syncData_profile_frame_witness :
    storeLookup witProfile.store "Target" = some { basal := some [⟨10, 1⟩], rest := 9 } ∧
    syncCore failingResolve [] [] witProfile "Target" =
      some { treatments := []
             profile := witProfile
             latestRecordDate := none
             unprocessedRecords := [] } ∧
    (({ treatments := []
        profile := witProfile
        latestRecordDate := none
        unprocessedRecords := [] } : SyncResult).profile.defaultProfile =
        witProfile.defaultProfile ∧
      (∀ k, k ≠ "Target" →
        storeLookup ({ treatments := []
                       profile := witProfile
                       latestRecordDate := none
                       unprocessedRecords := [] } : SyncResult).profile.store k =
          storeLookup witProfile.store k) ∧
      storeLookup ({ treatments := []
                     profile := witProfile
                     latestRecordDate := none
                     unprocessedRecords := [] } : SyncResult).profile.store "Target" =
        some { ({ basal := some [⟨10, 1⟩], rest := 9 } : ProfileConfig) with
                 basal := some (updateBasalProfile
                   ((some [(⟨10, 1⟩ : ScheduleEntry)]).getD []) (basalRecordsOf [] [])) }) :=
  ⟨by decide, by decide,
   syncData_profile_frame failingResolve [] [] witProfile "Target"
     { basal := some [⟨10, 1⟩], rest := 9 } _ (by decide) (by decide)⟩

/-- Claim C10: when the target profile name is not a key of the loaded
store, the default profile's config is the merge base and the merged
config is written under the target name — the updated profile gains a
new store entry while the default profile's entry and every other
existing entry are unchanged. -/
theorem syncData_profile_default_fallback (resolve : Resolver)
    (fetched prev : List PatientRecord) (profile : Profile) (name : String)
    (cfg : ProfileConfig) (res : SyncResult)
    (hn : storeLookup profile.store name = none)
    (hd : storeLookup profile.store profile.defaultProfile = some cfg)
    (h : syncCore resolve fetched prev profile name = some res) :
    storeLookup res.profile.store name =
      some { cfg with
               basal := some (updateBasalProfile (cfg.basal.getD [])
                 (basalRecordsOf fetched prev)) } ∧
    (∀ k, k ≠ name → storeLookup res.profile.store k = storeLookup profile.store k) ∧
    res.profile.defaultProfile = profile.defaultProfile := by
  have hrc : resolveProfileConfig profile name = some cfg := by
    unfold resolveProfileConfig
    rw [hn]
    exact hd
  rw [syncCore_eq_of_config resolve fetched prev profile name cfg hrc] at h
  cases h
  refine ⟨?_, ?_, rfl⟩
  · exact storeLookup_storeSet_self profile.store name _
  · intro k hk
    exact storeLookup_storeSet_ne profile.store name k _ hk

theorem syncData_profile_default_fallback_witness :
    storeLookup cexProfile.store "Other" = none ∧
    storeLookup cexProfile.store cexProfile.defaultProfile =
      some { basal := some [], rest := 5 } ∧
    syncCore failingResolve [] [] cexProfile "Other" =
      some { treatments := []
             profile := { defaultProfile := "Default"
                          store := [("Default", { basal := some [], rest := 5 }),
                                    ("Other", { basal := some [], rest := 5 })] }
             latestRecordDate := none
             unprocessedRecords := [] } ∧
    (storeLookup ({ defaultProfile := "Default"
                    store := [("Default", { basal := some [], rest := 5 }),
                              ("Other", { basal := some [], rest := 5 })] } : Profile).store
        "Other" =
      some { ({ basal := some [], rest := 5 } : ProfileConfig) with
               basal := some (updateBasalProfile
                 ((some ([] : List ScheduleEntry)).getD []) (basalRecordsOf [] [])) } ∧
      (∀ k, k ≠ "Other" →
        storeLookup ({ defaultProfile := "Default"
                       store := [("Default", { basal := some [], rest := 5 }),
                                 ("Other", { basal := some [], rest := 5 })] } : Profile).store k =
          storeLookup cexProfile.store k) ∧
      ({ defaultProfile := "Default"
         store := [("Default", { basal := some [], rest := 5 }),
                   ("Other", { basal := some [], rest := 5 })] } : Profile).defaultProfile =
        cexProfile.defaultProfile) :=
  ⟨by decide, by decide, by decide,
   syncData_profile_default_fallback failingResolve [] [] cexProfile "Other"
     { basal := some [], rest := 5 }
     { treatments := []
       profile := { defaultProfile := "Default"
                    store := [("Default", { basal := some [], rest := 5 }),
                              ("Other", { basal := some [], rest := 5 })] }
       latestRecordDate := none
       unprocessedRecords := [] }
     (by decide) (by decide) (by decide)⟩

/-- Claim C6, counterexample: `startSynchronization` performs no
credential check of its own — with the diasend username absent both
loopers are still constructed and started. -/
theorem startSynchronization_starts_without_credentials :
    isBlankCredential none = true ∧
    (startSynchronization none (some "pw") failingResolve [] [] [] cexProfile
        "Default" idEntriesHandler).entriesLoopStarted = true ∧
    (startSynchronization none (some "pw") failingResolve [] [] [] cexProfile
        "Default" idEntriesHandler).treatmentsLoopStarted = true := by
  decide

/-- Claim C6, amended: a missing diasend username or password makes
`startPumpSettingsSynchronization` throw before its loop is constructed;
`startSynchronization`, by contrast, starts both loops unconditionally,
but every cycle then throws inside `getDiasendPatientData` before any
external call, so no fetch, report, or profile update is ever invoked by
either loop. -/
theorem missing_credentials_block_external_calls (u p pn : Option String)
    (resolve : Resolver) (fetchedE fetchedT prev : List PatientRecord)
    (profile : Profile) (name : String) (handler : List Entry → List Entry)
    (h : isBlankCredential u = true ∨ isBlankCredential p = true) :
    startupFailed (startPumpSettingsSynchronization u p pn) = true ∧
    (startSynchronization u p resolve fetchedE fetchedT prev profile name
        handler).entriesLoopStarted = true ∧
    (startSynchronization u p resolve fetchedE fetchedT prev profile name
        handler).treatmentsLoopStarted = true ∧
    syncGlucoseTraced u p fetchedE handler = (none, []) ∧
    syncDataTraced u p resolve fetchedT prev profile name = (none, []) := by
  have hfetch : ∀ f : List PatientRecord,
      ∃ e, getDiasendPatientDataChecked u p f = .error e := by
    intro f
    unfold getDiasendPatientDataChecked
    rcases h with h | h
    · rw [if_pos h]
      exact ⟨_, rfl⟩
    · by_cases hu : isBlankCredential u = true
      · rw [if_pos hu]
        exact ⟨_, rfl⟩
      · rw [if_neg hu, if_pos h]
        exact ⟨_, rfl⟩
  obtain ⟨eE, hE⟩ := hfetch fetchedE
  obtain ⟨eT, hT⟩ := hfetch fetchedT
  refine ⟨?_, rfl, rfl, ?_, ?_⟩
  · unfold startPumpSettingsSynchronization
    rcases h with h | h
    · rw [if_pos h]
      rfl
    · by_cases hu : isBlankCredential u = true
      · rw [if_pos hu]
        rfl
      · rw [if_neg hu, if_pos h]
        rfl
  · unfold syncGlucoseTraced
    rw [hE]
  · unfold syncDataTraced
    rw [hT]

theorem missing_credentials_block_external_calls_witness :
    (isBlankCredential none = true ∨ isBlankCredential (some "pw") = true) ∧
    (startupFailed (startPumpSettingsSynchronization none (some "pw") (some "Default")) = true ∧
      (startSynchronization none (some "pw") failingResolve [] [] [] cexProfile
          "Default" idEntriesHandler).entriesLoopStarted = true ∧
      (startSynchronization none (some "pw") failingResolve [] [] [] cexProfile
          "Default" idEntriesHandler).treatmentsLoopStarted = true ∧
      syncGlucoseTraced none (some "pw") [] idEntriesHandler = (none, []) ∧
      syncDataTraced none (some "pw") failingResolve [] [] cexProfile "Default" =
        (none, [])) :=
  ⟨by decide,
   missing_credentials_block_external_calls none (some "pw") (some "Default")
     failingResolve [] [] [] cexProfile "Default" idEntriesHandler (by decide)⟩

theorem identifyTreatments_partition_witness :
    ([witCarb, witBolus].map PatientRecord.uid).Nodup ∧
    (∀ r ∈ [witCarb, witBolus].filter isCarbOrBolus,
      witResolver r ([witCarb, witBolus].filter isCarbOrBolus) = .skipped →
      ∃ r2 ∈ [witCarb, witBolus].filter isCarbOrBolus, ∃ t,
        witResolver r2 ([witCarb, witBolus].filter isCarbOrBolus) = .resolved t ∧
        t.counterpartUid = some r.uid) ∧
    (∀ r ∈ [witCarb, witBolus].filter isCarbOrBolus, ∀ t,
      witResolver r ([witCarb, witBolus].filter isCarbOrBolus) = .resolved t →
      t.resolvedUid = r.uid ∧
      (∀ u, t.counterpartUid = some u →
        ∃ r2 ∈ [witCarb, witBolus].filter isCarbOrBolus, r2.uid = u ∧
          witResolver r2 ([witCarb, witBolus].filter isCarbOrBolus) = .skipped)) ∧
    (∀ r ∈ [witCarb, witBolus], isCarbOrBolus r = true →
      (contributesTo r (identifyTreatments witResolver [witCarb, witBolus]).treatments = true ∧
        r ∉ (identifyTreatments witResolver [witCarb, witBolus]).unprocessedRecords) ∨
      (contributesTo r (identifyTreatments witResolver [witCarb, witBolus]).treatments = false ∧
        r ∈ (identifyTreatments witResolver [witCarb, witBolus]).unprocessedRecords)) :=
  ⟨by decide,
   by
     intro r hr hsk
     rcases (by simpa using hr : (r = witCarb ∨ r = witBolus) ∧ isCarbOrBolus r = true).1 with h | h
     · subst h
       exact ⟨witBolus, by decide, Treatment.mealBolus 2 1, rfl, rfl⟩
     · subst h
       simp [witResolver, witBolus] at hsk,
   by
     intro r hr t ht
     rcases (by simpa using hr : (r = witCarb ∨ r = witBolus) ∧ isCarbOrBolus r = true).1 with h | h
     · subst h
       simp [witResolver, witCarb] at ht
     · subst h
       have h3 : ResolveResult.resolved (Treatment.mealBolus 2 1) =
           ResolveResult.resolved t := ht
       injection h3 with h4
       subst h4
       refine ⟨rfl, ?_⟩
       intro u hu
       have h5 : (1 : Nat) = u := by
         simpa [Treatment.counterpartUid] using hu
       subst h5
       exact ⟨witCarb, by decide, rfl, rfl⟩,
   identifyTreatments_partition witResolver [witCarb, witBolus]
     (by decide)
     (by
       intro r hr hsk
       rcases (by simpa using hr : (r = witCarb ∨ r = witBolus) ∧ isCarbOrBolus r = true).1 with h | h
       · subst h
         exact ⟨witBolus, by decide, Treatment.mealBolus 2 1, rfl, rfl⟩
       · subst h
         simp [witResolver, witBolus] at hsk)
     (by
       intro r hr t ht
       rcases (by simpa using hr : (r = witCarb ∨ r = witBolus) ∧ isCarbOrBolus r = true).1 with h | h
       · subst h
         simp [witResolver, witCarb] at ht
       · subst h
         have h3 : ResolveResult.resolved (Treatment.mealBolus 2 1) =
             ResolveResult.resolved t := ht
         injection h3 with h4
         subst h4
         refine ⟨rfl, ?_⟩
         intro u hu
         have h5 : (1 : Nat) = u := by
           simpa [Treatment.counterpartUid] using hu
         subst h5
         exact ⟨witCarb, by decide, rfl, rfl⟩)⟩

theorem identifyTreatments_failure_isolated_witness :
    cexRecord ∈ [witCarb, cexRecord].filter isCarbOrBolus ∧
    failingResolve cexRecord ([witCarb, cexRecord].filter isCarbOrBolus) =
      .failed "could not resolve" ∧
    (cexRecord ∈ (identifyTreatments failingResolve [witCarb, cexRecord]).unprocessedRecords ∧
      (identifyTreatments failingResolve [witCarb, cexRecord]).unprocessedRecords =
        ([witCarb, cexRecord].filter isCarbOrBolus).filter
          (fun r => resolveFailed (failingResolve r ([witCarb, cexRecord].filter isCarbOrBolus))) ∧
      (identifyTreatments failingResolve [witCarb, cexRecord]).treatments =
        ([witCarb, cexRecord].filter isCarbOrBolus).filterMap
          (fun r => resolveOk (failingResolve r ([witCarb, cexRecord].filter isCarbOrBolus)))) :=
  ⟨by decide, by decide,
   identifyTreatments_failure_isolated failingResolve [witCarb, cexRecord]
     cexRecord "could not resolve" (by decide) (by decide)⟩
